import Mathlib

/-!
Shallow embedding of the game backend (`src/server.js`, final iteration):
the Italian trick-taking card game server.  Pure game logic — card model,
trick comparison, scoring, and the socket handlers `startRoundRequest`,
`playerBet`, `playerCardPlayed` and the helper `processPlayedCards` — is
translated into executable Lean definitions.  Socket emissions are modelled
as an explicit event list; the mutable `gameStates[roomCode]` entry is the
explicit `Option GameState` threaded through the handlers (`none` models a
missing/deleted entry).  MongoDB persistence, logging and transport are
side channels the game logic never reads back, so they are omitted.
-/

namespace GameBackend

/-- The four suits, strings "Denari", "Spade", "Bastoni", "Coppe" in the source. -/
inductive Suit
  | Denari | Spade | Bastoni | Coppe
deriving DecidableEq, Repr, Fintype

/-- The ten card values `[2, 3, 4, 5, 6, 7, "Fante", "Cavallo", "Re", "Asso"]`. -/
inductive CardValue
  | n2 | n3 | n4 | n5 | n6 | n7 | Fante | Cavallo | Re | Asso
deriving DecidableEq, Repr, Fintype

/-- A deck card `{ suit, value }`. -/
structure Card where
  suit : Suit
  value : CardValue
deriving DecidableEq, Repr, Fintype

/-- `valuePoints` lookup table (server.js lines 661-664). -/
def valuePoints : CardValue → Int
  | .n2 => 2
  | .n3 => 3
  | .n4 => 4
  | .n5 => 5
  | .n6 => 6
  | .n7 => 7
  | .Fante => 8
  | .Cavallo => 9
  | .Re => 10
  | .Asso => 11

/-- `suitStrength` lookup table (server.js lines 666-668). -/
def suitStrength : Suit → Int
  | .Denari => 4
  | .Spade => 3
  | .Bastoni => 2
  | .Coppe => 1

/-- `compareCards(c1, c2)` (server.js lines 670-677): `true` iff `c1` beats `c2`. -/
def compareCards (c1 c2 : Card) : Bool :=
  let v1 := valuePoints c1.value
  let v2 := valuePoints c2.value
  if v1 = v2 then
    decide (suitStrength c1.suit > suitStrength c2.suit)
  else
    decide (v1 > v2)

/-- The suit iteration order of the deck-building loop. -/
def suitsList : List Suit := [.Denari, .Spade, .Bastoni, .Coppe]

/-- The value iteration order of the deck-building loop. -/
def valuesList : List CardValue :=
  [.n2, .n3, .n4, .n5, .n6, .n7, .Fante, .Cavallo, .Re, .Asso]

/-- The fresh 40-card deck built at every deal (server.js lines 1125-1132):
for each suit, one card per value. -/
def freshDeck : List Card :=
  (suitsList.map (fun s => valuesList.map (fun v => { suit := s, value := v }))).flatten

/-- Settlement score update for one player with a declared (numeric) bet
(server.js lines 719-730): `score + (10 + bet)` on an exact hit, otherwise
`score - |wins - bet|`. -/
def settleScore (score : Int) (wins : Nat) (bet : Int) : Int :=
  if (wins : Int) = bet then score + (10 + bet)
  else score - ((wins : Int) - bet).natAbs

/-- Settlement score update including the unset-bet sentinel `""`:
JavaScript evaluates `wins === ""` to `false` and coerces `""` to `0`
inside `Math.abs(wins - "")`, so an unset bet is penalised like a bet of 0
that can never hit. -/
def settleScoreOpt (score : Int) (wins : Nat) (bet : Option Int) : Int :=
  match bet with
  | some b => settleScore score wins b
  | none => score - ((wins : Int) - 0).natAbs

/-- Modelled from the spec (ScoringPolicy, spec 4.5): round delta is
`10 + bid` when `tricksWon = bid` and `-(|tricksWon - bid|)` otherwise. -/
def roundDelta (tricksWon : Nat) (bid : Int) : Int :=
  if (tricksWon : Int) = bid then 10 + bid else -|(tricksWon : Int) - bid|

/-- A card held in a hand: the dealt card object after dealing attaches the
mutable `played` flag (`card.played = false`). -/
structure HandCard where
  suit : Suit
  value : CardValue
  played : Bool
deriving DecidableEq, Repr

/-- The underlying deck card of a hand entry. -/
def HandCard.card (hc : HandCard) : Card := { suit := hc.suit, value := hc.value }

/-- Dealing a deck card into a hand: `card.played = false` is attached. -/
def Card.toHandCard (c : Card) : HandCard :=
  { suit := c.suit, value := c.value, played := false }

/-- Per-player entry of `game.players[socketId]` (server.js lines 1147-1164).
The `""` bet sentinel is `none`; `playedCard`/`playedCardIndex` are `null`
initially. -/
structure PlayerState where
  name : String
  hand : List HandCard
  bet : Option Int
  playedCard : Option Card
  playedCardIndex : Option Nat
  score : Int
  currentRoundWins : Nat
  revealedCardsCount : Nat
deriving DecidableEq, Repr

/-- One room's `gameStates[roomCode]` object.  `players` is the JavaScript
object as an association list in insertion order (`Object.keys` order),
`firstToReveal` is `none` while the field is still `undefined` (before the
first deal), `lastRoundWinner` is `null` ↦ `none`. -/
structure GameState where
  round : Nat
  deck : List Card
  players : List (String × PlayerState)
  firstToReveal : Option String
  lastRoundWinner : Option String
  nextRoundReadyCount : Nat
deriving DecidableEq, Repr

/-- The freshly created game object (server.js lines 1107-1112):
`{ round: 0, players: {}, nextRoundReadyCount: 0, lastRoundWinner: null }`. -/
def freshGame : GameState :=
  { round := 0, deck := [], players := [], firstToReveal := none,
    lastRoundWinner := none, nextRoundReadyCount := 0 }

/-- The distinct `gameError` rejection messages emitted by `playerCardPlayed`. -/
inductive GameError
  | illegalCard
  | alreadyPlayed
  | notYourTurn
deriving DecidableEq, Repr

/-- Socket emissions of the game handlers, restricted to the fields the
verified claims are about.  `roundFinished` and `handResult` are broadcast
(per-player mirrored card fields dropped); `startRoundData` is per-player. -/
inductive GameEvent
  | handResult (winnerId : String)
  | roundFinished (player1Score player2Score : Int)
      (player1Wins player2Wins : Nat) (firstToReveal : String)
  | gameOver (score1 score2 : Int)
  | nextHand (firstToReveal : String)
  | gameError (e : GameError)
  | opponentPlayedTheirCard
  | waitingForOpponentPlay
  | waitingForOpponentReady
  | startRoundData (round : Nat) (yourCards : List HandCard)
      (opponentCards : List (Option HandCard)) (firstToReveal : String)
      (opponentName : String)
  | bothBetsPlaced
  | opponentBetPlaced (opponentBet : Int)
deriving DecidableEq, Repr

/-- `game.players[id]` object-key lookup on the association list. -/
def getPlayer (ps : List (String × PlayerState)) (id : String) : Option PlayerState :=
  (ps.find? (fun e => e.1 == id)).map (fun e => e.2)

/-- Assignment through an object reference `game.players[id] = p`. -/
def setPlayer (ps : List (String × PlayerState)) (id : String) (p : PlayerState) :
    List (String × PlayerState) :=
  ps.map (fun e => if e.1 == id then (e.1, p) else e)

/-- `playerIds.find(i => i !== id)` (server.js line 1241). -/
def opponentIdOf (ps : List (String × PlayerState)) (id : String) : Option String :=
  (ps.map (fun e => e.1)).find? (fun i => i != id)

/-- `processPlayedCards(roomCode, io)` (server.js lines 679-813).  Resolves
the trick from the two stored `playedCard`s, updates win counters and the
trick leader, and on round completion settles scores, records
`lastRoundWinner := handWinnerId` (the winner of this final trick) and, for
`round >= 10`, emits `gameOver` and deletes `gameStates[roomCode]`
(returned as inner `none`).  The outer `none` models the crash paths the
source would take on `playerIds[0]/[1]` or a `null` `playedCard`. -/
def processPlayedCards (g : GameState) : Option (Option GameState × List GameEvent) :=
  match g.players with
  | (player1Id, player1) :: (player2Id, player2) :: rest =>
    match player1.playedCard, player2.playedCard with
    | some card1, some card2 =>
      let player1WinsHand := compareCards card1 card2
      let handWinnerId := if player1WinsHand then player1Id else player2Id
      let p1w :=
        if player1WinsHand then
          { player1 with currentRoundWins := player1.currentRoundWins + 1 }
        else player1
      let p2w :=
        if player1WinsHand then player2
        else { player2 with currentRoundWins := player2.currentRoundWins + 1 }
      let evHand := GameEvent.handResult handWinnerId
      let p1r := { p1w with playedCard := none, playedCardIndex := none }
      let p2r := { p2w with playedCard := none, playedCardIndex := none }
      if p1r.revealedCardsCount = g.round ∧ p2r.revealedCardsCount = g.round then
        let s1 := settleScoreOpt p1r.score p1r.currentRoundWins p1r.bet
        let s2 := settleScoreOpt p2r.score p2r.currentRoundWins p2r.bet
        let evRound := GameEvent.roundFinished s1 s2
          p1r.currentRoundWins p2r.currentRoundWins handWinnerId
        let p1f := { p1r with score := s1, bet := none, currentRoundWins := 0, revealedCardsCount := 0 }
        let p2f := { p2r with score := s2, bet := none, currentRoundWins := 0, revealedCardsCount := 0 }
        if 10 ≤ g.round then
          some (none, [evHand, evRound, GameEvent.gameOver s1 s2])
        else
          some (some { g with
                        players := (player1Id, p1f) :: (player2Id, p2f) :: rest,
                        firstToReveal := some handWinnerId,
                        lastRoundWinner := some handWinnerId },
                [evHand, evRound])
      else
        some (some { g with
                      players := (player1Id, p1r) :: (player2Id, p2r) :: rest,
                      firstToReveal := some handWinnerId },
              [evHand, GameEvent.nextHand handWinnerId])
    | _, _ => none
  | _ => none

/-- How a `playerCardPlayed` request ends: silently dropped (no game for
the room, or the actor/opponent is not in it — the source only logs a
warning), rejected with a `gameError` message and no mutation, or accepted. -/
inductive PlayResult
  | noGame
  | noOpponent
  | rejected (e : GameError)
  | accepted
deriving DecidableEq, Repr

/-- Result of running a card-play request: the room's `gameStates` entry
afterwards, the socket emissions, and how the request ended. -/
structure HandlerOut where
  state : Option GameState
  events : List GameEvent
  result : PlayResult
deriving DecidableEq, Repr

/-- The `playerCardPlayed` handler (server.js lines 1232-1291).  Validation
order follows the source: hand/card match first, then the `played` flag,
then the turn check against `game.firstToReveal`; only then is the play
recorded, and either the trick resolves (both played) or the turn passes to
the opponent.  `none` propagates the crash paths of `processPlayedCards`. -/
def playerCardPlayed (gOpt : Option GameState) (actor : String) (card : Card)
    (cardIndex : Nat) : Option HandlerOut :=
  match gOpt with
  | none => some { state := none, events := [], result := .noGame }
  | some g =>
    match getPlayer g.players actor with
    | none => some { state := some g, events := [], result := .noGame }
    | some player =>
      match opponentIdOf g.players actor with
      | none => some { state := some g, events := [], result := .noOpponent }
      | some opponentId =>
        match getPlayer g.players opponentId with
        | none => some { state := some g, events := [], result := .noOpponent }
        | some opponent =>
          match player.hand.get? cardIndex with
          | none =>
            some { state := some g, events := [GameEvent.gameError .illegalCard],
                   result := .rejected .illegalCard }
          | some hc =>
            if hc.suit = card.suit ∧ hc.value = card.value then
              if hc.played then
                some { state := some g,
                       events := [GameEvent.gameError .alreadyPlayed],
                       result := .rejected .alreadyPlayed }
              else if g.firstToReveal = some actor then
                let player2 := { player with
                  playedCard := some card,
                  playedCardIndex := some cardIndex,
                  revealedCardsCount := player.revealedCardsCount + 1,
                  hand := player.hand.set cardIndex { hc with played := true } }
                let g2 := { g with players := setPlayer g.players actor player2 }
                if opponent.playedCard.isSome then
                  match processPlayedCards g2 with
                  | none => none
                  | some (st, evs) =>
                    some { state := st, events := evs, result := .accepted }
                else
                  some { state := some { g2 with firstToReveal := some opponentId },
                         events := [GameEvent.opponentPlayedTheirCard,
                                    GameEvent.waitingForOpponentPlay],
                         result := .accepted }
              else
                some { state := some g,
                       events := [GameEvent.gameError .notYourTurn],
                       result := .rejected .notYourTurn }
            else
              some { state := some g, events := [GameEvent.gameError .illegalCard],
                     result := .rejected .illegalCard }

/-- The `playerBet` handler (server.js lines 1205-1230): stores the bet
unconditionally, then either broadcasts `bothBetsPlaced` (all bets set) or
notifies the still-undeclared opponent. -/
def playerBet (gOpt : Option GameState) (actor : String) (bet : Int) :
    Option GameState × List GameEvent :=
  match gOpt with
  | none => (none, [])
  | some g =>
    match getPlayer g.players actor with
    | none => (some g, [])
    | some player =>
      let player2 := { player with bet := some bet }
      let g2 := { g with players := setPlayer g.players actor player2 }
      let allBets := g2.players.map (fun e => e.2.bet)
      let evs :=
        if allBets.all (fun b => b.isSome) then
          [GameEvent.bothBetsPlaced]
        else
          match opponentIdOf g2.players actor with
          | some otherId =>
            match getPlayer g2.players otherId with
            | some otherPlayer =>
              if otherPlayer.bet = none then [GameEvent.opponentBetPlaced bet]
              else []
            | none => []
          | none => []
      (some g2, evs)

/-- The `opponent1Cards` field of the `startRoundData` payload
(server.js lines 1171, 1178): `round === 1 ? oppCards : Array(round).fill(null)`. -/
def opponentCardsPayload (round : Nat) (oppCards : List HandCard) :
    List (Option HandCard) :=
  if round = 1 then oppCards.map some else List.replicate round none

/-- The `startRoundRequest` handler (server.js lines 1102-1203).  The
sender's identity is taken only to show the handler ignores it: the ready
gate is the bare per-room counter.  `roomPlayers` is the `matches` document's
`players` list `(socketId, name)`; `shuffledDeck` stands for the result of
`deck.sort(() => Math.random() - 0.5)` (some permutation of `freshDeck`);
`randFirst` resolves `Math.random() < 0.5` for the leader choice. -/
def startRoundRequest (gOpt : Option GameState) ( _sender : String)
    (roomPlayers : List (String × String)) (shuffledDeck : List Card)
    (randFirst : Bool) : Option GameState × List GameEvent :=
  let g0 := gOpt.getD freshGame
  let g1 := { g0 with nextRoundReadyCount := g0.nextRoundReadyCount + 1 }
  if g1.nextRoundReadyCount = 2 then
    let g2 := { g1 with nextRoundReadyCount := 0 }
    match roomPlayers with
    | (id1, name1) :: (id2, name2) :: _ =>
      let round := g2.round + 1
      let firstPlayer :=
        match g2.lastRoundWinner with
        | some w => w
        | none => if randFirst then id1 else id2
      let p1Cards := (shuffledDeck.take round).map Card.toHandCard
      let rest1 := shuffledDeck.drop round
      let p2Cards := (rest1.take round).map Card.toHandCard
      let s1 := match getPlayer g2.players id1 with | some p => p.score | none => 0
      let s2 := match getPlayer g2.players id2 with | some p => p.score | none => 0
      let g3 := { g2 with
        round := round,
        deck := rest1.drop round,
        players := [
          (id1, { name := name1, hand := p1Cards, bet := none, playedCard := none,
                  playedCardIndex := none, score := s1, currentRoundWins := 0,
                  revealedCardsCount := 0 }),
          (id2, { name := name2, hand := p2Cards, bet := none, playedCard := none,
                  playedCardIndex := none, score := s2, currentRoundWins := 0,
                  revealedCardsCount := 0 })],
        firstToReveal := some firstPlayer,
        lastRoundWinner := none }
      (some g3,
       [GameEvent.startRoundData round p1Cards (opponentCardsPayload round p2Cards)
          firstPlayer name2,
        GameEvent.startRoundData round p2Cards (opponentCardsPayload round p1Cards)
          firstPlayer name1])
    | _ => (some g2, [])
  else
    (some g1, [GameEvent.waitingForOpponentReady])

/-- The `createRoom` handler's room document and callback (server.js lines
1028-1049): a 4-digit code is drawn, the match document is inserted with
whatever `roomSize` the client requested, and the callback succeeds.  The
random code and the database are passed in / returned explicitly. -/
structure RoomRec where
  roomCode : String
  players : List (String × String)
  roomSize : Int
deriving DecidableEq, Repr

/-- Outcome of `createRoom`: the source's callback either succeeds with the
room code or reports the database failure; no other failure mode exists. -/
inductive CreateRoomResult
  | ok (roomCode : String)
  | dbError
deriving DecidableEq, Repr

/-- `createRoom` (server.js lines 1028-1049), database insert assumed to
succeed: the room is created with the requested size, unvalidated. -/
def createRoom (sid name : String) (roomSize : Int) (newCode : String) :
    RoomRec × CreateRoomResult :=
  ({ roomCode := newCode, players := [(sid, name)], roomSize := roomSize },
   .ok newCode)

/-! ### Concrete example inputs used in evaluations below -/

/-- A two-member room document, as stored in the `matches` collection. -/
def roomAB : List (String × String) := [("A", "Alice"), ("B", "Bob")]

/-- Example card: 7 of Spade. -/
def cS7 : Card := { suit := .Spade, value := .n7 }

/-- Example card: 2 of Denari. -/
def cD2 : Card := { suit := .Denari, value := .n2 }

/-- Example card: 2 of Coppe. -/
def cC2 : Card := { suit := .Coppe, value := .n2 }

/-- Player entry for Alice at the last trick of a 3-card round: she has
already won 2 tricks, all 3 of her cards are played, her final card
(2 of Coppe) is on the table, and she bet 0. -/
def pA3 : PlayerState :=
  { name := "Alice",
    hand := [{ suit := .Coppe, value := .n2, played := true },
             { suit := .Coppe, value := .n3, played := true },
             { suit := .Coppe, value := .n4, played := true }],
    bet := some 0, playedCard := some cC2, playedCardIndex := some 0,
    score := 0, currentRoundWins := 2, revealedCardsCount := 3 }

/-- Player entry for Bob at the last trick of a 3-card round: no tricks won
yet, all 3 cards played, his final card (Asso of Denari) is on the table,
and he bet 1. -/
def pB3 : PlayerState :=
  { name := "Bob",
    hand := [{ suit := .Denari, value := .Asso, played := true },
             { suit := .Denari, value := .Re, played := true },
             { suit := .Denari, value := .n5, played := true }],
    bet := some 1, playedCard := some { suit := .Denari, value := .Asso },
    playedCardIndex := some 0, score := 0, currentRoundWins := 0,
    revealedCardsCount := 3 }

/-- Room state at the moment the final trick of round 3 resolves: Alice has
won 2 of 3 tricks, Bob is about to win the last one. -/
def gBug : GameState :=
  { round := 3, deck := [], players := [("A", pA3), ("B", pB3)],
    firstToReveal := some "A", lastRoundWinner := none, nextRoundReadyCount := 0 }

/-- Example card: Asso of Denari. -/
def cDA : Card := { suit := .Denari, value := .Asso }

/-- Player entry for Alice at the start of round 2: two unplayed cards,
bet declared as 0. -/
def pA2 : PlayerState :=
  { name := "Alice",
    hand := [{ suit := .Coppe, value := .n2, played := false },
             { suit := .Coppe, value := .n3, played := false }],
    bet := some 0, playedCard := none, playedCardIndex := none,
    score := 0, currentRoundWins := 0, revealedCardsCount := 0 }

/-- Player entry for Bob at the start of round 2: two unplayed cards,
bet declared as 1. -/
def pB2 : PlayerState :=
  { name := "Bob",
    hand := [{ suit := .Denari, value := .Asso, played := false },
             { suit := .Denari, value := .Re, played := false }],
    bet := some 1, playedCard := none, playedCardIndex := none,
    score := 0, currentRoundWins := 0, revealedCardsCount := 0 }

/-- Room state in the middle of round 2, before any trick: it is Alice's
turn (`firstToReveal = "A"`), both bets are declared. -/
def gTurn : GameState :=
  { round := 2, deck := [], players := [("A", pA2), ("B", pB2)],
    firstToReveal := some "A", lastRoundWinner := none, nextRoundReadyCount := 0 }

/-- Room state at the final trick of round 10 (the round cap): both final
cards are on the table, all 10 cards of each hand revealed. -/
def gCap : GameState :=
  { round := 10, deck := [],
    players := [
      ("A", { pA3 with revealedCardsCount := 10, playedCard := some cC2 }),
      ("B", { pB3 with revealedCardsCount := 10, playedCard := some { suit := .Denari, value := .Asso } })],
    firstToReveal := some "A", lastRoundWinner := none, nextRoundReadyCount := 0 }

/-- A game state that recorded one readiness signal. -/
def gReady1 : GameState := { freshGame with nextRoundReadyCount := 1 }

/-! ### Helper lemmas -/

/-- Dealing a card into a hand is injective. -/
theorem toHandCard_injective : Function.Injective Card.toHandCard := by
  intro a b h
  cases a
  cases b
  simpa [Card.toHandCard, HandCard.mk.injEq, Card.mk.injEq] using h

/-- Object-key lookup after an object-key assignment on the same key. -/
theorem getPlayer_setPlayer_self (ps : List (String × PlayerState)) (id : String)
    (q : PlayerState) (h : (getPlayer ps id).isSome) :
    getPlayer (setPlayer ps id q) id = some q := by
  induction ps with
  | nil => simp [getPlayer] at h
  | cons e t ih =>
    cases he : (e.1 == id) with
    | true => simp [getPlayer, setPlayer, List.find?, he]
    | false =>
      have h2 : (getPlayer t id).isSome := by
        simpa [getPlayer, List.find?, he] using h
      simpa [getPlayer, setPlayer, List.find?, he] using ih h2

/-! ### Claim theorems -/

/-- C1: at round settlement the score delta added to the cumulative score is
`10 + bid` when `tricksWon = bid` and `-(|tricksWon - bid|)` otherwise; the
settlement update `settleScoreOpt` (used by `processPlayedCards`) applied to
a declared bid is exactly `score + roundDelta tricksWon bid`, a function of
the `(tricksWon, bid)` pair alone; in particular bidding 2 and winning
exactly 2 tricks yields delta `12`. -/
theorem scoring_delta_matches_policy (s : Int) (w : Nat) (b : Int) :
    settleScoreOpt s w (some b) = s + roundDelta w b ∧ roundDelta 2 2 = 12 := by
  refine ⟨?_, by decide⟩
  show settleScore s w b = s + roundDelta w b
  rw [settleScore, roundDelta]
  by_cases h : (w : Int) = b
  · rw [if_pos h, if_pos h]
  · rw [if_neg h, if_neg h, Int.abs_eq_natAbs, sub_eq_add_neg]

/-- C2: the trick comparison is total and antisymmetric on the 40-card
deck: for distinct cards exactly one of `compareCards a b`,
`compareCards b a` holds; the higher `valuePoints` weight wins, and on a
weight tie the higher `suitStrength` wins. -/
theorem compareCards_total_antisymmetric :
    Fintype.card Card = 40 ∧
    ∀ a b : Card, a ≠ b →
      ((compareCards a b = true ↔ compareCards b a = false) ∧
       (valuePoints a.value ≠ valuePoints b.value →
         (compareCards a b = true ↔ valuePoints b.value < valuePoints a.value)) ∧
       (valuePoints a.value = valuePoints b.value →
         (compareCards a b = true ↔ suitStrength b.suit < suitStrength a.suit))) := by
  constructor
  · decide
  · decide

/-- Witness for C2 at a concrete pair: 2 of Denari and 2 of Coppe tie on
rank, Denari is the stronger suit, so exactly the first comparison wins. -/
theorem compareCards_total_antisymmetric_witness :
    cD2 ≠ cC2 ∧ compareCards cD2 cC2 = true ∧ compareCards cC2 cD2 = false := by
  have hne : cD2 ≠ cC2 := by decide
  have h := (compareCards_total_antisymmetric.2 cD2 cC2 hne).1
  have hfwd : compareCards cD2 cC2 = true := by decide
  exact ⟨hne, hfwd, h.mp hfwd⟩

/-- C7 counterexample: `createRoom` with requested capacity 1 (less than 2)
does not fail with any capacity error — it creates the room and the
callback succeeds with the room code.  (No `CapacityInvalid` failure mode
exists anywhere in the source.) -/
theorem createRoom_capacity_one_succeeds :
    createRoom "s1" "Alice" 1 "1234" =
      ({ roomCode := "1234", players := [("s1", "Alice")], roomSize := 1 },
       CreateRoomResult.ok "1234") := rfl

/-- C7 amended: `createRoom` performs no capacity validation at all — for
every requested capacity (including capacities below 2) it stores the room
with that capacity, with the creator as sole member, and returns the
allocated short room code. -/
theorem createRoom_never_validates_capacity (sid nm : String) (size : Int)
    (code : String) :
    (createRoom sid nm size code).2 = CreateRoomResult.ok code ∧
    (createRoom sid nm size code).1.roomSize = size ∧
    (createRoom sid nm size code).1.players = [(sid, nm)] ∧
    (createRoom sid nm size code).1.roomCode = code :=
  ⟨rfl, rfl, rfl, rfl⟩

/-- C10: the `opponent1Cards` field of the `startRoundData` payload reveals
nothing about the opponent's hand for every round `N ≥ 2` — it is `N` nulls,
identical for any two opponent hands — while for round 1 it is the
opponent's actual dealt hand. -/
theorem opponentCards_hidden_from_round_two (n : Nat) (h1 h2 : List HandCard) :
    (2 ≤ n → opponentCardsPayload n h1 = List.replicate n none ∧
             opponentCardsPayload n h1 = opponentCardsPayload n h2) ∧
    opponentCardsPayload 1 h1 = h1.map some := by
  constructor
  · intro hn
    have hne : n ≠ 1 := by omega
    simp [opponentCardsPayload, hne]
  · simp [opponentCardsPayload]

/-- Witness for C10 at round 2 with two different opponent hands: the
payload is two nulls either way, and at round 1 the single dealt card is
exposed. -/
theorem opponentCards_hidden_witness :
    (opponentCardsPayload 2 [cS7.toHandCard] = List.replicate 2 none ∧
     opponentCardsPayload 2 [cS7.toHandCard] = opponentCardsPayload 2 [cD2.toHandCard]) ∧
    opponentCardsPayload 1 [cS7.toHandCard] = [some cS7.toHandCard] :=
  ⟨(opponentCards_hidden_from_round_two 2 [cS7.toHandCard] [cD2.toHandCard]).1 (by decide),
   (opponentCards_hidden_from_round_two 1 [cS7.toHandCard] []).2⟩

/-- C3 counterexample: in `gTurn` it is Alice's turn; Bob plays out of turn
claiming 7 of Spade at index 0, which does not match his stored card.  The
state is untouched, but the rejection is `illegalCard`, not `notYourTurn`:
the turn check runs only after the card-validity checks. -/
theorem out_of_turn_rejection_is_not_always_notYourTurn :
    gTurn.firstToReveal ≠ some "B" ∧
    playerCardPlayed (some gTurn) "B" cS7 0 =
      some { state := some gTurn,
             events := [GameEvent.gameError GameError.illegalCard],
             result := PlayResult.rejected GameError.illegalCard } :=
  ⟨by decide, rfl⟩

/-- C3 amended: a card play by anyone other than the designated actor
(`game.firstToReveal`) is always refused — the stored state is returned
unchanged and the play is never accepted — and the rejection reason is
`notYourTurn` exactly when the claimed card passes the hand-validity checks
(the actor is in the game with an opponent present, the claimed suit/value
match the stored card at that index, and that card is unplayed); otherwise
an `illegalCard`/`alreadyPlayed` error is reported first. -/
theorem out_of_turn_never_mutates (g : GameState) (actor : String) (c : Card)
    (i : Nat) (hturn : g.firstToReveal ≠ some actor) :
    ∃ out, playerCardPlayed (some g) actor c i = some out ∧
      out.state = some g ∧ out.result ≠ PlayResult.accepted ∧
      (∀ p oid opp hc, getPlayer g.players actor = some p →
        opponentIdOf g.players actor = some oid →
        getPlayer g.players oid = some opp →
        p.hand.get? i = some hc →
        hc.suit = c.suit → hc.value = c.value → hc.played = false →
        out.result = PlayResult.rejected GameError.notYourTurn) := by
  simp only [playerCardPlayed]
  cases hp : getPlayer g.players actor with
  | none =>
    exact ⟨{ state := some g, events := [], result := .noGame }, rfl, rfl,
      by simp, fun p oid opp hc h1 h2 h3 h4 h5 h6 h7 => by cases h1⟩
  | some player =>
    simp only []
    cases hoid : opponentIdOf g.players actor with
    | none =>
      exact ⟨{ state := some g, events := [], result := .noOpponent }, rfl, rfl,
        by simp, fun p oid opp hc h1 h2 h3 h4 h5 h6 h7 => by cases h2⟩
    | some opponentId =>
      simp only []
      cases hopp : getPlayer g.players opponentId with
      | none =>
        exact ⟨{ state := some g, events := [], result := .noOpponent }, rfl, rfl,
          by simp, fun p oid opp hc h1 h2 h3 h4 h5 h6 h7 => by
            cases h2
            rw [hopp] at h3
            cases h3⟩
      | some opponent =>
        simp only []
        cases hhc : player.hand.get? i with
        | none =>
          exact ⟨{ state := some g, events := [GameEvent.gameError .illegalCard],
                   result := .rejected .illegalCard }, rfl, rfl,
            by simp, fun p oid opp hc h1 h2 h3 h4 h5 h6 h7 => by
              cases h1
              rw [hhc] at h4
              cases h4⟩
        | some hc0 =>
          simp only []
          by_cases hmatch : hc0.suit = c.suit ∧ hc0.value = c.value
          · rw [if_pos hmatch]
            by_cases hpl : hc0.played = true
            · rw [if_pos hpl]
              exact ⟨{ state := some g, events := [GameEvent.gameError .alreadyPlayed],
                       result := .rejected .alreadyPlayed }, rfl, rfl,
                by simp, fun p oid opp hc h1 h2 h3 h4 h5 h6 h7 => by
                  cases h1
                  rw [hhc] at h4
                  cases h4
                  rw [h7] at hpl
                  cases hpl⟩
            · rw [if_neg hpl, if_neg hturn]
              exact ⟨{ state := some g, events := [GameEvent.gameError .notYourTurn],
                       result := .rejected .notYourTurn }, rfl, rfl,
                by simp, fun p oid opp hc h1 h2 h3 h4 h5 h6 h7 => rfl⟩
          · rw [if_neg hmatch]
            exact ⟨{ state := some g, events := [GameEvent.gameError .illegalCard],
                     result := .rejected .illegalCard }, rfl, rfl,
              by simp, fun p oid opp hc h1 h2 h3 h4 h5 h6 h7 => by
                cases h1
                rw [hhc] at h4
                cases h4
                exact absurd ⟨h5, h6⟩ hmatch⟩

/-- Witness for C3 amended: Bob, out of turn in `gTurn`, claims his real
unplayed Asso of Denari at index 0 — the refusal is `notYourTurn` and the
state is unchanged. -/
theorem out_of_turn_never_mutates_witness :
    ∃ out, playerCardPlayed (some gTurn) "B" cDA 0 = some out ∧
      out.state = some gTurn ∧
      out.result = PlayResult.rejected GameError.notYourTurn := by
  obtain ⟨out, h1, h2, h3, h4⟩ := out_of_turn_never_mutates gTurn "B" cDA 0 (by decide)
  exact ⟨out, h1, h2,
    h4 pB2 "A" pA2 { suit := .Denari, value := .Asso, played := false }
      rfl rfl rfl rfl rfl rfl rfl⟩

/-- C5 (code bug): resolving the final trick of round 3 in `gBug`, where
Alice has won 2 of the 3 tricks but Bob wins the last one.  The broadcast
`roundFinished` event records Alice with 2 tricks and Bob with 1 (scores
`-2` and `11`), yet `lastRoundWinner` — the next round's leader — is set to
`"B"`, the winner of the final trick, not the player with most tricks. -/
theorem lastRoundWinner_is_last_trick_winner :
    ∃ g2, processPlayedCards gBug =
        some (some g2, [GameEvent.handResult "B",
                        GameEvent.roundFinished (-2) 11 2 1 "B"]) ∧
      g2.lastRoundWinner = some "B" ∧ g2.firstToReveal = some "B" :=
  ⟨_, rfl, rfl, rfl⟩

/-- C6 counterexample: in `gTurn` both players' bids are declared (`0` and
`1`), yet a further `playerBet` from Alice silently replaces her stored bid
with `9`. -/
theorem bid_overwritten_after_all_declared :
    (gTurn.players.map (fun e => e.2.bet)).all (fun b => b.isSome) = true ∧
    (getPlayer gTurn.players "A").map PlayerState.bet = some (some 0) ∧
    ((playerBet (some gTurn) "A" 9).1.bind
        (fun g2 => getPlayer g2.players "A")).map PlayerState.bet =
      some (some 9) :=
  ⟨rfl, rfl, rfl⟩

/-- C6 amended: `playerBet` never enforces bid immutability — every
`playerBet` action from a room member unconditionally overwrites that
member's stored bid with the new value, whether or not all bids were
already declared; bids are only cleared by the settlement reset. -/
theorem playerBet_always_overwrites (g : GameState) (actor : String) (b : Int)
    (p : PlayerState) (hp : getPlayer g.players actor = some p) :
    (playerBet (some g) actor b).1 =
      some { g with players := setPlayer g.players actor { p with bet := some b } } ∧
    getPlayer (setPlayer g.players actor { p with bet := some b }) actor =
      some { p with bet := some b } := by
  constructor
  · simp [playerBet, hp]
  · exact getPlayer_setPlayer_self _ _ _ (by simp [hp])

/-- Witness for C6 amended at `gTurn`: Alice's stored bid becomes 9. -/
theorem playerBet_always_overwrites_witness :
    (playerBet (some gTurn) "A" 9).1 =
      some { gTurn with players := setPlayer gTurn.players "A" { pA2 with bet := some 9 } } ∧
    getPlayer (setPlayer gTurn.players "A" { pA2 with bet := some 9 }) "A" =
      some { pA2 with bet := some 9 } :=
  playerBet_always_overwrites gTurn "A" 9 pA2 rfl

/-- C8 counterexample: after the round-10 teardown the room's game entry is
gone (`none`); a subsequent card play is dropped with no emission at all —
no `actionRejected`, no error of any kind (the source only logs a console
warning; no `StateDesync` or `RoomNotFound` rejection exists) — a bet is
likewise silently dropped, and a readiness signal even proceeds to count
toward a brand-new game. -/
theorem post_teardown_actions_not_rejected :
    playerCardPlayed none "A" cS7 0 =
      some { state := none, events := [], result := PlayResult.noGame } ∧
    playerBet none "A" 3 = (none, []) ∧
    (startRoundRequest none "A" roomAB freshDeck true).1 = some gReady1 :=
  ⟨rfl, rfl, rfl⟩

/-- C8 amended: when the final trick of a round with `round ≥ 10` resolves,
the settlement broadcasts `gameOver` carrying both players' final cumulative
scores and deletes the room's game state; afterwards `playerCardPlayed` and
`playerBet` on that room are silently ignored (state stays deleted, no
events are emitted, nothing is accepted). -/
theorem round_cap_teardown (g : GameState) (id1 id2 : String)
    (p1 p2 : PlayerState) (rest : List (String × PlayerState)) (c1 c2 : Card)
    (hplayers : g.players = (id1, p1) :: (id2, p2) :: rest)
    (hc1 : p1.playedCard = some c1) (hc2 : p2.playedCard = some c2)
    (hr1 : p1.revealedCardsCount = g.round)
    (hr2 : p2.revealedCardsCount = g.round)
    (hcap : 10 ≤ g.round) :
    (let winner := if compareCards c1 c2 then id1 else id2
     let w1 := if compareCards c1 c2 then p1.currentRoundWins + 1
               else p1.currentRoundWins
     let w2 := if compareCards c1 c2 then p2.currentRoundWins
               else p2.currentRoundWins + 1
     let s1 := settleScoreOpt p1.score w1 p1.bet
     let s2 := settleScoreOpt p2.score w2 p2.bet
     processPlayedCards g =
       some (none, [GameEvent.handResult winner,
                    GameEvent.roundFinished s1 s2 w1 w2 winner,
                    GameEvent.gameOver s1 s2])) ∧
    (∀ actor c i, playerCardPlayed none actor c i =
      some { state := none, events := [], result := PlayResult.noGame }) ∧
    (∀ actor b, playerBet none actor b = (none, [])) := by
  refine ⟨?_, fun actor c i => rfl, fun actor b => rfl⟩
  cases hwin : compareCards c1 c2 <;>
    simp [processPlayedCards, hplayers, hc1, hc2, hwin, hr1, hr2, hcap]

/-- Witness for C8 amended at `gCap` (round 10, Bob takes the final trick):
`gameOver` carries the settled scores `-2` and `11`, the state is deleted,
and a later play on the room is silently dropped. -/
theorem round_cap_teardown_witness :
    processPlayedCards gCap =
      some (none, [GameEvent.handResult "B",
                   GameEvent.roundFinished (-2) 11 2 1 "B",
                   GameEvent.gameOver (-2) 11]) ∧
    playerCardPlayed none "A" cS7 0 =
      some { state := none, events := [], result := PlayResult.noGame } := by
  have h := round_cap_teardown gCap "A" "B"
    ({ pA3 with revealedCardsCount := 10, playedCard := some cC2 })
    ({ pB3 with revealedCardsCount := 10, playedCard := some { suit := .Denari, value := .Asso } })
    [] cC2 { suit := .Denari, value := .Asso } rfl rfl rfl rfl rfl (by decide)
  exact ⟨h.1, h.2.1 "A" cS7 0⟩

/-- C9 counterexample: starting from no game state, two `startRoundRequest`
signals that both come from Alice are enough to trigger dealing — round 1
starts with one card dealt to each player, although Bob never signaled
readiness. -/
theorem same_member_ready_signals_trigger_deal :
    ∃ g2, (startRoundRequest
             (startRoundRequest none "A" roomAB freshDeck true).1
             "A" roomAB freshDeck true).1 = some g2 ∧
      g2.round = 1 ∧
      g2.players.map (fun e => e.1) = ["A", "B"] ∧
      g2.players.map (fun e => e.2.hand.length) = [1, 1] :=
  ⟨_, rfl, rfl, rfl, rfl⟩

/-- C9 amended: dealing is gated solely on the per-room ready counter
reaching 2 — the handler is blind to who sent the signal (its result is
identical for any two senders), and while the incremented counter is not 2
it only records the signal and emits `waitingForOpponentReady`; in
particular duplicate signals from one member count like signals from
distinct members. -/
theorem readyCounter_sender_blind (gOpt : Option GameState) (sa sb : String)
    (room : List (String × String)) (d : List Card) (rb : Bool) :
    startRoundRequest gOpt sa room d rb = startRoundRequest gOpt sb room d rb ∧
    ((gOpt.getD freshGame).nextRoundReadyCount + 1 ≠ 2 →
      startRoundRequest gOpt sa room d rb =
        (some { gOpt.getD freshGame with
                  nextRoundReadyCount :=
                    (gOpt.getD freshGame).nextRoundReadyCount + 1 },
         [GameEvent.waitingForOpponentReady])) := by
  refine ⟨rfl, fun h => ?_⟩
  simp [startRoundRequest, h]

/-- Witness for C9 amended: from a fresh room (counter 0) a single signal
only records readiness, and the handler treats senders interchangeably. -/
theorem readyCounter_sender_blind_witness :
    startRoundRequest none "A" roomAB freshDeck true =
      startRoundRequest none "B" roomAB freshDeck true ∧
    startRoundRequest none "A" roomAB freshDeck true =
      (some gReady1, [GameEvent.waitingForOpponentReady]) := by
  have h := readyCounter_sender_blind none "A" "B" roomAB freshDeck true
  exact ⟨h.1, h.2 (by decide)⟩

/-- C4: when the second readiness signal triggers dealing, the handler
builds a fresh 40-card deck (`freshDeck`, 4 suits × 10 values, no
duplicates), the new round number is the previous round number plus 1, each
of the two players receives a hand of exactly that many cards, and the two
hands are disjoint — for any shuffle (any permutation of the fresh deck). -/
theorem deal_hands_disjoint (g : GameState) (s id1 n1 id2 n2 : String)
    (rest : List (String × String)) (d : List Card) (rb : Bool)
    (hready : g.nextRoundReadyCount + 1 = 2)
    (hperm : d.Perm freshDeck)
    (hround : g.round + 1 ≤ 20) :
    freshDeck.length = 40 ∧ freshDeck.Nodup ∧
    ∃ g2 p1 p2,
      (startRoundRequest (some g) s ((id1, n1) :: (id2, n2) :: rest) d rb).1 =
        some g2 ∧
      g2.round = g.round + 1 ∧
      g2.players = [(id1, p1), (id2, p2)] ∧
      p1.hand.length = g.round + 1 ∧ p2.hand.length = g.round + 1 ∧
      ∀ hc, hc ∈ p1.hand → hc ∉ p2.hand := by
  have hlen : d.length = 40 := by rw [hperm.length_eq]; decide
  have hnd : d.Nodup := hperm.nodup_iff.mpr (by decide)
  refine ⟨by decide, by decide, ?_⟩
  simp only [startRoundRequest, Option.getD, if_pos hready]
  refine ⟨_, _, _, rfl, rfl, rfl, ?_, ?_, ?_⟩
  · simp only [List.length_map, List.length_take, hlen]
    omega
  · simp only [List.length_map, List.length_take, List.length_drop, hlen]
    omega
  · intro hc hmem1 hmem2
    obtain ⟨a, hamem, rfl⟩ := List.mem_map.mp hmem1
    obtain ⟨b, hbmem, hbeq⟩ := List.mem_map.mp hmem2
    have hab : b = a := toHandCard_injective hbeq
    subst hab
    have hbdrop : b ∈ d.drop (g.round + 1) := List.take_subset _ _ hbmem
    exact List.disjoint_take_drop hnd le_rfl hamem hbdrop

/-- Witness for C4: dealing round 1 (previous round 0) from the unshuffled
fresh deck gives each player exactly one card and disjoint hands. -/
theorem deal_hands_disjoint_witness :
    freshDeck.length = 40 ∧ freshDeck.Nodup ∧
    ∃ g2 p1 p2,
      (startRoundRequest (some gReady1) "A" [("A", "Alice"), ("B", "Bob")]
          freshDeck true).1 = some g2 ∧
      g2.round = gReady1.round + 1 ∧
      g2.players = [("A", p1), ("B", p2)] ∧
      p1.hand.length = gReady1.round + 1 ∧ p2.hand.length = gReady1.round + 1 ∧
      ∀ hc, hc ∈ p1.hand → hc ∉ p2.hand :=
  deal_hands_disjoint gReady1 "A" "A" "Alice" "B" "Bob" [] freshDeck true
    (by decide) (List.Perm.refl _) (by decide)

end GameBackend
